import Mathlib

/-!
Verification development for the Treasury HUB spreadsheet ingestion and
synchronization engine.

The Python source is shallowly embedded: spreadsheet cells become an
inductive `Cell` type, sheets become total cell functions with explicit
shape, the SQLite tables touched by the claims (`cash_positions`,
`sync_log`) become lists inside a `DB` record, and every extraction
routine is translated function-by-function from
`database_sync.py` / `treasury_hub_main_app.py`.

Machine floats of the source hold exact spreadsheet figures in all the
behaviours under study, so numeric cell payloads are embedded as `Rat`.
Parsed datetimes are embedded as rational day numbers (days on the
proleptic Gregorian calendar, via the standard civil-day formula), so
that date ordering, 30-day windows and Excel serial offsets are plain
rational arithmetic.

String processing (upper-casing, stripping, splitting) is done on
`List Char`, mirroring Python semantics character by character.
-/

unseal Rat.mul Rat.inv Rat.add Rat.sub Rat.ofScientific

set_option maxRecDepth 10000

/-! ## Cells and Python-style coercions -/

/-- A spreadsheet cell as seen through `pandas.read_excel(..., header := none)`:
absent / NaN cells, numeric cells, text cells, and native datetime cells
(the latter carrying their day number). -/
inductive Cell where
  | empty : Cell
  | num : Rat → Cell
  | str : String → Cell
  | date : Rat → Cell
deriving DecidableEq

/-- `pd.notna` on a scalar cell. -/
def pyNotna : Cell → Bool
  | .empty => false
  | _ => true

/-- Python `x != 0` on a cell value: numeric cells compare numerically,
any other non-null payload (text, datetime) is simply unequal to the
integer `0`. -/
def pyNeZero : Cell → Bool
  | .num v => decide (v ≠ 0)
  | _ => true

/-- Rendering of a rational payload by Python `str` on a float.  Only two
facts about this rendering are load-bearing for the program: it is never
the three characters `nan` and it never contains letter markers such as
`VALOR`.  We therefore render `num/den`. -/
def ratRender (q : Rat) : String :=
  toString q.num ++ ("/") ++ toString q.den

/-- Python `str(cell)`: NaN prints as `nan`, text prints itself, numbers
and datetimes print their payload. -/
def cellStr : Cell → String
  | .empty => ("nan")
  | .num v => ratRender v
  | .str s => s
  | .date d => ("ts:") ++ ratRender d

/-- Python `str.strip()` / whitespace trimming, done on characters. -/
def stripChars (l : List Char) : List Char :=
  ((l.dropWhile Char.isWhitespace).reverse.dropWhile Char.isWhitespace).reverse

/-- Python `str.strip()` as a `String` operation. -/
def pyStrip (s : String) : String :=
  String.mk (stripChars s.data)

/-- Python `str.upper()` as a `String` operation (ASCII payloads). -/
def pyUpper (s : String) : String :=
  String.mk (s.data.map Char.toUpper)

/-- `needle` occurs as a prefix of `hay` (character lists). -/
def charsPre : List Char → List Char → Bool
  | [], _ => true
  | _ :: _, [] => false
  | a :: as, b :: bs => a == b && charsPre as bs

/-- `needle` occurs somewhere inside `hay` (character lists), i.e.
Python `needle in hay`. -/
def charsSub (needle : List Char) : List Char → Bool
  | [] => needle.isEmpty
  | c :: cs => charsPre needle (c :: cs) || charsSub needle cs

/-- Python `needle in hay` on strings. -/
def pyIn (needle hay : String) : Bool :=
  charsSub needle.data hay.data

/-- Numeric value of a list of decimal digit characters. -/
def digitsToNat (l : List Char) : Nat :=
  l.foldl (fun a c => a * 10 + (c.toNat - 48)) 0

/-- Every character is a decimal digit. -/
def allDigits (l : List Char) : Bool :=
  l.all Char.isDigit

/-- Unsigned numeric literal: digits with an optional decimal point,
at least one digit overall.  Core of Python `float(str)`, which the two
coercion sites (`float` and `pd.to_numeric(errors := coerce)`) both use;
exponent forms and the textual specials are outside the inputs the
program feeds them. -/
def parseUnsigned : List Char → Option Rat :=
  fun l =>
    match l.span (fun c => !(c == '.')) with
    | (ip, []) =>
      if ip ≠ [] ∧ allDigits ip then some ((digitsToNat ip : Rat)) else none
    | (ip, _ :: fp) =>
      if allDigits ip ∧ allDigits fp ∧ (ip ≠ [] ∨ fp ≠ []) then
        some ((digitsToNat ip : Rat) + (digitsToNat fp : Rat) / ((10 : Rat) ^ fp.length))
      else none

/-- Python `float(s)` on a string: strip whitespace, optional sign,
then an unsigned numeric literal. -/
def pyFloatStr (s : String) : Option Rat :=
  match stripChars s.data with
  | '+' :: rest => parseUnsigned rest
  | '-' :: rest => (parseUnsigned rest).map Neg.neg
  | l => parseUnsigned l

/-- Python `float(cell)` (and, on scalars, `pd.to_numeric(cell, errors :=
coerce)`): numbers pass through, numeric text parses, anything else
(NaN, non-numeric text, datetimes) fails. -/
def pyFloat : Cell → Option Rat
  | .empty => none
  | .num v => some v
  | .str s => pyFloatStr s
  | .date _ => none

/-! ## Calendar arithmetic -/

/-- Gregorian leap year test. -/
def isLeap (y : Nat) : Bool :=
  (y % 4 == 0 && y % 100 != 0) || y % 400 == 0

/-- Days in a month of the Gregorian calendar. -/
def daysInMonth (y m : Nat) : Nat :=
  if m == 2 then (if isLeap y then 29 else 28)
  else if m == 4 || m == 6 || m == 9 || m == 11 then 30 else 31

/-- Day number of a Gregorian calendar date (standard civil-day
formula; positive years).  Differences of `civilDay` values are exact
day distances, which is all the program observes. -/
def civilDay (y m d : Nat) : Nat :=
  let y' := if m ≤ 2 then y - 1 else y
  let era := y' / 400
  let yoe := y' - era * 400
  let mp := if 2 < m then m - 3 else m + 9
  let doy := (153 * mp + 2) / 5 + (d - 1)
  let doe := yoe * 365 + yoe / 4 - yoe / 100 + doy
  era * 146097 + doe

/-- Day number of 1900-01-01, the epoch used by the Excel-serial branch
of the scanner's date coercion. -/
def epoch1900 : Rat := (civilDay 1900 1 1 : Rat)

/-- Split a character list at every occurrence of a separator character
(Python `str.split(sep)` for a one-character separator). -/
def splitOnChar (sep : Char) : List Char → List (List Char)
  | [] => [[]]
  | c :: cs =>
    let r := splitOnChar sep cs
    if c == sep then [] :: r
    else
      match r with
      | [] => [[c]]
      | h :: t => (c :: h) :: t

/-- Month-abbreviation lookup used by the `%b` directive of
`strptime` (case-insensitive). -/
def monthAbbrev (l : List Char) : Option Nat :=
  match String.mk (l.map Char.toUpper) with
  | "JAN" => some 1
  | "FEB" => some 2
  | "MAR" => some 3
  | "APR" => some 4
  | "MAY" => some 5
  | "JUN" => some 6
  | "JUL" => some 7
  | "AUG" => some 8
  | "SEP" => some 9
  | "OCT" => some 10
  | "NOV" => some 11
  | "DEC" => some 12
  | _ => none

/-- A run of 1 to `maxLen` decimal digits (numeric `strptime`
directives). -/
def natField (l : List Char) (maxLen : Nat) : Option Nat :=
  if l ≠ [] ∧ l.length ≤ maxLen ∧ allDigits l then some (digitsToNat l) else none

/-- `pd.to_datetime(s, format := "%d-%b-%y")`: day, dash, month
abbreviation, dash, two-digit year (69..99 ↦ 19xx, 00..68 ↦ 20xx),
validated against the calendar; result is the day number. -/
def parseDMonY2 (s : String) : Option Rat :=
  match splitOnChar ('-') s.data with
  | [ds, ms, ys] => do
    let d ← natField ds 2
    let m ← monthAbbrev ms
    let yy ← natField ys 2
    let y := if yy ≤ 68 then 2000 + yy else 1900 + yy
    if 1 ≤ d ∧ d ≤ daysInMonth y m then some ((civilDay y m d : Rat)) else none
  | _ => none

/-- `pd.to_datetime(s, format := "%d/%m/%Y")`: day, slash, month
number, slash, year, validated against the calendar. -/
def parseDMY4 (s : String) : Option Rat :=
  match splitOnChar ('/') s.data with
  | [ds, ms, ys] => do
    let d ← natField ds 2
    let m ← natField ms 2
    let y ← natField ys 4
    if 1 ≤ y ∧ 1 ≤ m ∧ m ≤ 12 ∧ 1 ≤ d ∧ d ≤ daysInMonth y m then
      some ((civilDay y m d : Rat))
    else none
  | _ => none

/-- Format-free `pd.to_datetime(s)`.  Modelled from the spec on the
library default: the ISO `YYYY-MM-DD` shape it always accepts; the
claims under study never rely on any further heuristic of the library
parser, only on where this generic attempt sits in the coercion order
and on its failing for non-date text. -/
def parseGeneric (s : String) : Option Rat :=
  match splitOnChar ('-') s.data with
  | [ys, ms, ds] => do
    let y ← natField ys 4
    let m ← natField ms 2
    let d ← natField ds 2
    if ys.length = 4 ∧ 1 ≤ y ∧ 1 ≤ m ∧ m ≤ 12 ∧ 1 ≤ d ∧ d ≤ daysInMonth y m then
      some ((civilDay y m d : Rat))
    else none
  | _ => none

/-- The scanner's three-stage text-date coercion: `%d-%b-%y`, then
`%d/%m/%Y`, then the format-free parse. -/
def parseDateStr (s : String) : Option Rat :=
  match parseDMonY2 s with
  | some d => some d
  | none =>
    match parseDMY4 s with
    | some d => some d
    | none => parseGeneric s

/-- Full date coercion of `get_dynamic_liquidity_data`: text goes
through the stripped three-stage parse; numeric cells are Excel serial
day counts from the 1900 epoch (offset −2 above serial 59, −1 below,
compensating the 1900 leap-year miscount); datetime cells pass
through. -/
def parseDateCell : Cell → Option Rat
  | .str s => parseDateStr (pyStrip s)
  | .num v => some (if 59 < v then epoch1900 + (v - 2) else epoch1900 + (v - 1))
  | .date d => some d
  | .empty => none

/-! ## Sheets -/

/-- A sheet as loaded by `pd.read_excel(..., header := none)`: a total
cell function together with the frame shape (`shape[0]`, `shape[1]`).
Reads that the source guards by shape checks (or whose `IndexError` it
catches) are modelled by consulting `nrows` / `ncols` before `cell`. -/
structure Sheet where
  cell : Nat → Nat → Cell
  nrows : Nat
  ncols : Nat

/-- The two sheets `extract_and_sync` reads. -/
structure Sheets where
  dashSheet : Sheet
  sheet7 : Sheet

/-! ## MarkerColumnScanner (`get_dynamic_liquidity_data`) -/

/-- Header match of the scanner: row-1 cell is non-null and its
upper-cased text contains both `VALOR` and `EUR`. -/
def headerMatches (c : Cell) : Bool :=
  pyNotna c && pyIn ("VALOR") (pyUpper (cellStr c)) && pyIn ("EUR") (pyUpper (cellStr c))

/-- One column of the scan in `get_dynamic_liquidity_data`: returns the
`(parsed date, EUR millions)` sample the column contributes, or `none`
when any of the guards of the source (header match, date column two to
the left existing, at least 99 rows, both cells non-null, value not
equal to zero, date coercion, `float` coercion) skips the column. -/
def scanColumn (s : Sheet) (c : Nat) : Option (Rat × Rat) :=
  if s.nrows ≤ 1 then none
  else if headerMatches (s.cell 1 c) then
    if 2 ≤ c then
      let dv := s.cell 0 (c - 2)
      if 98 < s.nrows then
        let ev := s.cell 98 c
        if pyNotna dv && pyNotna ev && pyNeZero ev then
          match parseDateCell dv with
          | none => none
          | some pd =>
            match pyFloat ev with
            | none => none
            | some x => some (pd, x / 1000000)
        else none
      else none
    else none
  else none

/-- All samples collected by the left-to-right column scan. -/
def scanSamples (s : Sheet) : List (Rat × Rat) :=
  (List.range s.ncols).filterMap (scanColumn s)

/-- Ordering of samples by their date component (the key of the
source's `combined.sort`). -/
def sampleLE (a b : Rat × Rat) : Prop := a.1 ≤ b.1

instance : DecidableRel sampleLE := fun a b => inferInstanceAs (Decidable (a.1 ≤ b.1))

instance : IsTotal (Rat × Rat) sampleLE := ⟨fun a b => le_total a.1 b.1⟩

instance : IsTrans (Rat × Rat) sampleLE := ⟨fun _ _ _ h1 h2 => le_trans h1 h2⟩

/-- The 30-day windowing step: take the latest (last) date of the
sorted series, and keep the samples dated within 30 days of it; the
source falls back to the unfiltered series when the filter empties
it. -/
def windowSamples (l : List (Rat × Rat)) : List (Rat × Rat) :=
  match l.getLast? with
  | none => l
  | some last =>
    let cutoff := last.1 - 30
    let filtered := l.filter (fun p => decide (cutoff ≤ p.1))
    if filtered.isEmpty then l else filtered

/-- Result shape of the liquidity accessors: parallel date/value lists
plus the provenance string. -/
structure LiquidityResult where
  dates : List Rat
  values : List Rat
  source : String
deriving DecidableEq

/-- The provenance string attached to workbook-derived liquidity data,
parameterised by the series length as in the source's f-string. -/
def realTag (n : Nat) : String :=
  ("Excel Real Data (") ++ toString n ++ (" days)")

/-- `get_sample_liquidity_data`: the fixed demonstration series, built
by parsing the seven hard-coded `%d-%b-%y` strings. -/
def get_sample_liquidity_data : LiquidityResult :=
  { dates :=
      [("05-Aug-25"), ("06-Aug-25"), ("07-Aug-25"), ("08-Aug-25"),
       ("11-Aug-25"), ("12-Aug-25"), ("13-Aug-25")].filterMap parseDMonY2
    values := [28.5, 30.2, 31.8, 29.4, 32.1, 31.7, 32.6]
    source := ("Sample Data (Excel not found)") }

/-- `get_dynamic_liquidity_data`.  `none` stands for both failure modes
that make the source return the sample series before scanning (workbook
not located, `Lista contas` unreadable); otherwise the marker scan
runs, and a scan with no accepted sample also falls back. -/
def get_dynamic_liquidity_data (input : Option Sheet) : LiquidityResult :=
  match input with
  | none => get_sample_liquidity_data
  | some s =>
    let pre := scanSamples s
    if pre.isEmpty then get_sample_liquidity_data
    else
      let sorted := List.insertionSort sampleLE pre
      let final := windowSamples sorted
      { dates := final.map (fun p => p.1)
        values := final.map (fun p => p.2)
        source := realTag final.length }

/-! ## Relational store and SyncOrchestrator (`database_sync.py`) -/

/-- A row of `cash_positions`.  `day` is the calendar day of
`last_updated` (what `DATE(last_updated)` sees); `passId` is a ghost
provenance marker recording which orchestrator pass inserted the row,
carried only by the model so that claims about row provenance can be
stated. -/
structure CashRow where
  bank_name : String
  currency : String
  amount : Rat
  day : Nat
  passId : Nat
deriving DecidableEq

/-- A row of `sync_log` (the fields the claims observe). -/
structure LogRow where
  status : String
  records : Nat
  error_message : Option String
  sync_type : String
deriving DecidableEq

/-- The database state touched by the claims: the `cash_positions`
table, the append-only `sync_log`, and the ghost pass counter.  The
`cash_flow_forecast` / `key_metrics` tables are not inspected by any
claim; their sub-syncs are modelled by their record counts. -/
structure DB where
  cash_positions : List CashRow
  sync_log : List LogRow
  nextPass : Nat
deriving DecidableEq

/-- `log_sync_status`: append one row to `sync_log`. -/
def log_sync_status (db : DB) (row : LogRow) : DB :=
  { db with sync_log := db.sync_log ++ [row] }

/-- The cash-position extraction of `sync_cash_positions`: rows 77..90
of `Sheet7`, columns 1 (bank name) and 2 (amount); drop rows with
either field null, coerce the amount numerically dropping failures,
strip the bank name. -/
def netCashExtract (s : Sheet) : List (String × Rat) :=
  ((List.range' 77 14).filter (fun i => decide (i < s.nrows))).filterMap (fun i =>
    let b := s.cell i 1
    let a := s.cell i 2
    if pyNotna b && pyNotna a then
      match pyFloat a with
      | some v => some (pyStrip (cellStr b), v)
      | none => none
    else none)

/-- `sync_cash_positions`: delete today's rows of `cash_positions`,
insert the extracted rows (currency `EUR`), return the record count.
`fail` injects the own-`try/except` of the sub-sync (a store error):
the transaction is rolled back, `0` is returned.  A frame with fewer
than 3 columns makes the source's `iloc` raise, which the same handler
absorbs. -/
def sync_cash_positions (s : Sheet) (fail : Bool) (d pid : Nat) (db : DB) : Nat × DB :=
  if fail || decide (s.ncols < 3) then (0, db)
  else
    let rows := netCashExtract s
    let inserted := rows.map (fun p => CashRow.mk p.1 ("EUR") p.2 d pid)
    (rows.length,
      { db with cash_positions :=
          db.cash_positions.filter (fun r => !(r.day == d)) ++ inserted })

/-- Month-label test of the forecast sub-sync: `str(cell)` truthy and
not the literal `nan`. -/
def monthCellOk (c : Cell) : Bool :=
  !(cellStr c == ("")) && !(cellStr c == ("nan"))

/-- Record count of `sync_cash_flow_forecast`: one record per month
label present in columns 1..12 (resp. 15..26) of row 2 when the frame
is wide enough; a frame with fewer than 3 rows makes the inner block
raise, which its own handler absorbs with the count so far (0). -/
def forecastCount (dash : Sheet) : Nat :=
  if dash.nrows ≤ 2 then 0
  else
    (if 12 < dash.ncols then
      ((List.range' 1 12).filter (fun c => monthCellOk (dash.cell 2 c))).length
    else 0)
    + (if 26 < dash.ncols then
      ((List.range' 15 12).filter (fun c => monthCellOk (dash.cell 2 c))).length
    else 0)

/-- `sync_cash_flow_forecast` as the claims observe it: its record
count (its table is outside every claim's footprint).  `fail` injects
the sub-sync's own exception handler, which returns 0. -/
def sync_cash_flow_forecast (dash : Sheet) (fail : Bool) (db : DB) : Nat × DB :=
  if fail then (0, db) else (forecastCount dash, db)

/-- `sync_key_metrics` as the claims observe it: three metric records
on every non-failing run (its table is outside every claim's
footprint); `fail` injects its own exception handler. -/
def sync_key_metrics (fail : Bool) (db : DB) : Nat × DB :=
  if fail then (0, db) else (3, db)

/-- The environment one `extract_and_sync` invocation encounters: the
workbook file missing, the sheet read raising, or both sheets loaded
(with a store-failure flag for each of the three sub-syncs, modelling
their internally-absorbed exceptions). -/
inductive SyncInput where
  | fileMissing : SyncInput
  | sheetReadError : String → SyncInput
  | ok : Sheets → Bool → Bool → Bool → SyncInput

/-- Whether the top-level sheet read succeeds for this input. -/
def SyncInput.isOk : SyncInput → Bool
  | .ok _ _ _ _ => true
  | _ => false

/-- The `try`-block body of `extract_and_sync`: raises (as
`Except.error`) for a missing workbook or unreadable sheets, otherwise
runs the three sub-syncs in order and yields the summed record
count. -/
def extract_and_sync_body (input : SyncInput) (d pid : Nat) (db : DB) :
    Except String (Nat × DB) :=
  match input with
  | .fileMissing => .error ("Excel file not found")
  | .sheetReadError msg => .error (("Failed to read Excel sheets: ") ++ msg)
  | .ok sheets cashFail forecastFail metricsFail =>
    let r1 := sync_cash_positions sheets.sheet7 cashFail d pid db
    let r2 := sync_cash_flow_forecast sheets.dashSheet forecastFail r1.2
    let r3 := sync_key_metrics metricsFail r2.2
    .ok (r1.1 + r2.1 + r3.1, r3.2)

/-- `extract_and_sync`: run the body under the catch-all handler; a
success writes one `SUCCESS` log row with the summed count, any raise
is absorbed into one `ERROR` log row and `False`.  The ghost pass
counter ticks once per invocation. -/
def extract_and_sync (input : SyncInput) (syncType : String) (d : Nat) (db : DB) :
    Bool × DB :=
  let pid := db.nextPass
  let db0 : DB := { db with nextPass := pid + 1 }
  match extract_and_sync_body input d pid db0 with
  | .ok r => (true, log_sync_status r.2 (LogRow.mk ("SUCCESS") r.1 none syncType))
  | .error e => (false, log_sync_status db0 (LogRow.mk ("ERROR") 0 (some e) syncType))

/-! ## Scheduler (`AutoSyncScheduler.start_scheduler`) -/

/-- Scheduler state: the running flag and the shared database. -/
structure SchedState where
  running : Bool
  db : DB

/-- The `while self.is_running` loop of `start_scheduler`: each list
entry is one due tick (the sync environment it encounters and the
calendar day), invoked through `extract_and_sync`, whose boolean result
the loop discards. -/
def start_scheduler_loop : List (SyncInput × Nat) → SchedState → SchedState
  | [], st => st
  | t :: ts, st =>
    if st.running then
      start_scheduler_loop ts
        { st with db := (extract_and_sync t.1 ("AUTO") t.2 st.db).2 }
    else st

/-! ## Bank positions (`get_bank_positions_from_tabelas`) -/

/-- A row of the ranked bank table (columns `Bank`, `Balance`,
`Percentage`, `Yield`; `Currency` is the constant `EUR` on every row
of both the real and the fallback path). -/
structure BankRow where
  bank : String
  balance : Rat
  pct : Rat
  yieldStr : String
deriving DecidableEq

/-- Descending order on balances used by
`sort_values('Balance', ascending := False)`. -/
def balanceGE (a b : String × Rat) : Prop := b.2 ≤ a.2

instance : DecidableRel balanceGE := fun a b => inferInstanceAs (Decidable (b.2 ≤ a.2))

instance : IsTotal (String × Rat) balanceGE := ⟨fun a b => le_total b.2 a.2⟩

instance : IsTrans (String × Rat) balanceGE := ⟨fun _ _ _ h1 h2 => le_trans h2 h1⟩

/-- Python `round(x, 1)`: scale by 10, round half to even, scale
back. -/
def round1 (x : Rat) : Rat :=
  let n := x * 10
  let f : Int := n.floor
  let r := n - (f : Rat)
  (if r < 1/2 then (f : Rat)
   else if 1/2 < r then (f : Rat) + 1
   else if f % 2 = 0 then (f : Rat) else (f : Rat) + 1) / 10

/-- The shared tail of both bank-position paths: sort by balance
descending, attach each bank's share of the total as a rounded
percentage and as the `Yield` display string. -/
def finishBanks (rows : List (String × Rat)) : List BankRow :=
  let sorted := List.insertionSort balanceGE rows
  let total := (sorted.map (fun p => p.2)).sum
  sorted.map (fun p =>
    let pct := round1 (p.2 / total * 100)
    BankRow.mk p.1 p.2 pct (ratRender pct ++ ("%")))

/-- The hard-coded balances (in millions) of `get_fallback_banks`. -/
def fallbackBanksRaw : List (String × Rat) :=
  [(("UME BANK"), 5.668), (("Commerzbank"), 3.561), (("FKP Bank"), 3.55),
   (("FNB (SA)"), 3.34), (("Handelsbanken"), 1.650), (("Swedbank"), 1.45),
   (("HSBC"), 1.513), (("ING Bank"), 1.347), (("Jyske Bank"), 0.760),
   (("BPC BANK"), 0.738), (("SEB"), 0.200), (("UBS"), 0.72), (("LBCB"), 0.57)]

/-- `get_fallback_banks`: the fixed bank list through the shared
sort/percentage pipeline.  Note the frame carries no provenance
field of any kind. -/
def get_fallback_banks : List BankRow :=
  finishBanks fallbackBanksRaw

/-- The per-row extraction of `get_bank_positions_from_tabelas`: rows
78..90 of `Tabelas`, name in column 1 and balance in column 2, both
non-null, name non-blank after stripping, balance `float`-coercible
(a coercion failure is absorbed by the per-row handler), scaled to
millions. -/
def extractBanks (s : Sheet) : List (String × Rat) :=
  (List.range' 78 13).filterMap (fun i =>
    if s.nrows ≤ i then none
    else
      let b := s.cell i 1
      let bal := s.cell i 2
      if pyNotna b && pyNotna bal && !(pyStrip (cellStr b) == ("")) then
        match pyFloat bal with
        | some v => some (pyStrip (cellStr b), v / 1000000)
        | none => none
      else none)

/-- `get_bank_positions_from_tabelas`: `none` stands for the workbook
being missing or `Tabelas` unreadable; an extraction with no usable
row also falls back. -/
def get_bank_positions_from_tabelas (input : Option Sheet) : List BankRow :=
  match input with
  | none => get_fallback_banks
  | some s =>
    let rows := extractBanks s
    if rows.isEmpty then get_fallback_banks else finishBanks rows

/-! ## Daily cash flow and latest variation (`Lista contas`, row 100) -/

/-- The shared per-cell test of both row-100 scans: non-null,
`float`-coercible, non-zero. -/
def cellNumNZ (c : Cell) : Option Rat :=
  if pyNotna c then
    match pyFloat c with
    | some v => if decide (v ≠ 0) then some v else none
    | none => none
  else none

/-- Same test without the non-zero guard (the row-101 percentage
read keeps any numeric value). -/
def cellNum (c : Cell) : Option Rat :=
  if pyNotna c then pyFloat c else none

/-- Result of `get_daily_cash_flow` (the numeric fields; the derived
display strings and colour class are presentation only). -/
structure DailyCashFlow where
  cash_flow : Rat
  percentage : Rat
deriving DecidableEq

/-- `get_daily_cash_flow`: zero result when the workbook is missing or
the sheet has at most 101 rows; otherwise scan every column
left-to-right, keeping the last non-zero numeric cell of row 100 as
the cash flow and the last numeric cell of row 101 as the
percentage. -/
def get_daily_cash_flow (input : Option Sheet) : DailyCashFlow :=
  match input with
  | none => DailyCashFlow.mk 0 0
  | some s =>
    if s.nrows ≤ 101 then DailyCashFlow.mk 0 0
    else
      DailyCashFlow.mk
        ((List.range s.ncols).foldl (fun acc c =>
          match cellNumNZ (s.cell 100 c) with
          | some v => v
          | none => acc) 0)
        ((List.range s.ncols).foldl (fun acc c =>
          match cellNum (s.cell 101 c) with
          | some v => v
          | none => acc) 0)

/-- `get_latest_variation` (numeric field): zero when the workbook is
missing or the sheet has at most 100 rows; otherwise return the first
non-zero numeric cell of row 100 scanning right-to-left, else zero. -/
def get_latest_variation (input : Option Sheet) : Rat :=
  match input with
  | none => 0
  | some s =>
    if s.nrows ≤ 100 then 0
    else
      match (List.range s.ncols).reverse.findSome? (fun c => cellNumNZ (s.cell 100 c)) with
      | some v => v
      | none => 0

/-! ## Concrete exemplar inputs -/

/-- The `Lista contas` sheet of Scenario C: header `VALOR EUR` at row 1
column 10, date text `05-Aug-25` at row 0 column 8, value 32,600,000 at
row 98 column 10. -/
def scenCSheet : Sheet :=
  Sheet.mk (fun r c =>
    if r = 1 ∧ c = 10 then Cell.str ("VALOR EUR")
    else if r = 0 ∧ c = 8 then Cell.str ("05-Aug-25")
    else if r = 98 ∧ c = 10 then Cell.num 32600000
    else Cell.empty) 99 11

/-- The `Sheet7` of Scenario B: rows 77..90 × columns 1..2 hold
`("Bank A", 1 500 000)`, `(None, None)`, `("Bank B", "not-a-number")`
and then blanks. -/
def scenBSheet : Sheet :=
  Sheet.mk (fun r c =>
    if r = 77 ∧ c = 1 then Cell.str ("Bank A")
    else if r = 77 ∧ c = 2 then Cell.num 1500000
    else if r = 79 ∧ c = 1 then Cell.str ("Bank B")
    else if r = 79 ∧ c = 2 then Cell.str ("not-a-number")
    else Cell.empty) 99 3

/-- A sheet whose column 2 has a matching `VALOR EUR` header, a present
but unparseable date cell two columns left, and a present non-zero
value cell at row 98. -/
def cexSheet : Sheet :=
  Sheet.mk (fun r c =>
    if r = 1 ∧ c = 2 then Cell.str ("VALOR EUR")
    else if r = 0 ∧ c = 0 then Cell.str ("notadate")
    else if r = 98 ∧ c = 2 then Cell.num 5
    else Cell.empty) 99 3

/-- A `Tabelas` sheet holding, in rows 78..90, exactly the fallback
bank list (balances in raw units, descending). -/
def cexTabelasSheet : Sheet :=
  Sheet.mk (fun r c =>
    if c = 1 then
      (if r = 78 then Cell.str ("UME BANK")
       else if r = 79 then Cell.str ("Commerzbank")
       else if r = 80 then Cell.str ("FKP Bank")
       else if r = 81 then Cell.str ("FNB (SA)")
       else if r = 82 then Cell.str ("Handelsbanken")
       else if r = 83 then Cell.str ("HSBC")
       else if r = 84 then Cell.str ("Swedbank")
       else if r = 85 then Cell.str ("ING Bank")
       else if r = 86 then Cell.str ("Jyske Bank")
       else if r = 87 then Cell.str ("BPC BANK")
       else if r = 88 then Cell.str ("UBS")
       else if r = 89 then Cell.str ("LBCB")
       else if r = 90 then Cell.str ("SEB")
       else Cell.empty)
    else if c = 2 then
      (if r = 78 then Cell.num 5668000
       else if r = 79 then Cell.num 3561000
       else if r = 80 then Cell.num 3550000
       else if r = 81 then Cell.num 3340000
       else if r = 82 then Cell.num 1650000
       else if r = 83 then Cell.num 1513000
       else if r = 84 then Cell.num 1450000
       else if r = 85 then Cell.num 1347000
       else if r = 86 then Cell.num 760000
       else if r = 87 then Cell.num 738000
       else if r = 88 then Cell.num 720000
       else if r = 89 then Cell.num 570000
       else if r = 90 then Cell.num 200000
       else Cell.empty)
    else Cell.empty) 92 3

/-- An entirely blank zero-sized sheet. -/
def emptySheet : Sheet :=
  Sheet.mk (fun _ _ => Cell.empty) 0 0

/-- An empty database. -/
def emptyDB : DB := DB.mk [] [] 0

/-- A 102-row sheet whose row 100 holds one non-zero numeric cell. -/
def row100Sheet : Sheet :=
  Sheet.mk (fun r c => if r = 100 ∧ c = 0 then Cell.num 7 else Cell.empty) 102 2

/-- A 102-row sheet whose row 100 holds no numeric non-zero cell. -/
def row100BlankSheet : Sheet :=
  Sheet.mk (fun _ _ => Cell.empty) 102 2

/-! ## Helper lemmas -/

/-- Skipping a `none` column does not change a `filterMap` scan. -/
theorem filterMap_eq_filter_ne {α β : Type} [DecidableEq α] (f : α → Option β) (c : α)
    (hf : f c = none) :
    ∀ l : List α, l.filterMap f = (l.filter (fun i => !(i == c))).filterMap f := by
  intro l
  induction l with
  | nil => rfl
  | cons a t ih =>
    by_cases hac : a = c
    · subst hac
      simp [List.filterMap_cons, hf, ih]
    · have hb : (!(a == c)) = true := by simp [hac]
      simp only [List.filter_cons]
      rw [if_pos hb]
      cases hfa : f a <;> simp [List.filterMap_cons, hfa, ih]

/-- A left fold that overwrites its accumulator with every hit equals
the first hit of the reversed list. -/
theorem foldl_keep_eq_reverse_findSome (f : Nat → Option Rat) :
    ∀ (l : List Nat) (init : Rat),
      l.foldl (fun acc c =>
        match f c with
        | some v => v
        | none => acc) init =
      (match l.reverse.findSome? f with
       | some v => v
       | none => init) := by
  intro l
  induction l with
  | nil => intro init; rfl
  | cons a t ih =>
    intro init
    rw [List.foldl_cons, ih, List.reverse_cons, List.findSome?_append]
    cases h : t.reverse.findSome? f with
    | some v => simp [Option.or]
    | none =>
      cases hfa : f a <;> simp [Option.or, List.findSome?, hfa]

/-- `sync_cash_positions` never touches `sync_log`. -/
theorem sync_cash_positions_log (s : Sheet) (f : Bool) (d pid : Nat) (db : DB) :
    ((sync_cash_positions s f d pid db).2).sync_log = db.sync_log := by
  unfold sync_cash_positions
  split <;> rfl

/-- `sync_cash_positions` never touches the ghost pass counter. -/
theorem sync_cash_positions_nextPass (s : Sheet) (f : Bool) (d pid : Nat) (db : DB) :
    ((sync_cash_positions s f d pid db).2).nextPass = db.nextPass := by
  unfold sync_cash_positions
  split <;> rfl

/-- The forecast sub-sync leaves the modelled state unchanged. -/
theorem sync_cash_flow_forecast_db (dash : Sheet) (f : Bool) (db : DB) :
    (sync_cash_flow_forecast dash f db).2 = db := by
  unfold sync_cash_flow_forecast
  split <;> rfl

/-- The key-metric sub-sync leaves the modelled state unchanged. -/
theorem sync_key_metrics_db (f : Bool) (db : DB) :
    (sync_key_metrics f db).2 = db := by
  unfold sync_key_metrics
  split <;> rfl

/-- Every `extract_and_sync` invocation appends exactly one log row. -/
theorem extract_and_sync_log_length (input : SyncInput) (t : String) (d : Nat) (db : DB) :
    ((extract_and_sync input t d db).2).sync_log.length = db.sync_log.length + 1 := by
  cases input with
  | fileMissing => simp [extract_and_sync, extract_and_sync_body, log_sync_status]
  | sheetReadError msg => simp [extract_and_sync, extract_and_sync_body, log_sync_status]
  | ok sheets cf ff mf =>
    simp only [extract_and_sync, extract_and_sync_body, log_sync_status,
      sync_cash_flow_forecast_db, sync_key_metrics_db]
    rw [sync_cash_positions_log]
    simp

/-- Rows freshly inserted for day `d` all survive a filter for day `d`. -/
theorem filter_day_inserted (rows : List (String × Rat)) (d pid : Nat) :
    ((rows.map (fun p => CashRow.mk p.1 ("EUR") p.2 d pid)).filter
      (fun r => r.day == d)) =
      rows.map (fun p => CashRow.mk p.1 ("EUR") p.2 d pid) := by
  rw [List.filter_map]
  have : ((fun r => r.day == d) ∘ fun p : String × Rat => CashRow.mk p.1 ("EUR") p.2 d pid) =
      fun _ => true := by
    funext p
    simp [Function.comp]
  rw [this, List.filter_true]

/-- Rows freshly inserted for day `d` are all removed by the
day-`d` delete. -/
theorem filter_day_inserted_del (rows : List (String × Rat)) (d pid : Nat) :
    ((rows.map (fun p => CashRow.mk p.1 ("EUR") p.2 d pid)).filter
      (fun r => !(r.day == d))) = [] := by
  rw [List.filter_map]
  have : ((fun r => !(r.day == d)) ∘ fun p : String × Rat => CashRow.mk p.1 ("EUR") p.2 d pid) =
      fun _ => false := by
    funext p
    simp [Function.comp]
  rw [this, List.filter_false, List.map_nil]

/-- Selecting day `d` after deleting day `d` yields nothing. -/
theorem filter_day_after_del (l : List CashRow) (d : Nat) :
    ((l.filter (fun r => !(r.day == d))).filter (fun r => r.day == d)) = [] := by
  rw [List.filter_filter]
  have : (fun a : CashRow => (a.day == d) && !(a.day == d)) = fun _ => false := by
    funext a
    cases h : (a.day == d) <;> simp [h]
  rw [this, List.filter_false]

/-- Deleting day `d` twice is the same as deleting it once. -/
theorem filter_day_del_idem (l : List CashRow) (d : Nat) :
    ((l.filter (fun r => !(r.day == d))).filter (fun r => !(r.day == d))) =
      l.filter (fun r => !(r.day == d)) := by
  rw [List.filter_filter]
  have : (fun a : CashRow => (!(a.day == d)) && !(a.day == d)) =
      fun a : CashRow => !(a.day == d) := by
    funext a
    cases h : (a.day == d) <;> simp [h]
  rw [this]

/-- Shape of one non-failing cash pass: today's rows are replaced by
the extraction tagged with the current pass id, exactly one log row is
appended, and the pass counter ticks. -/
theorem extract_ok_cash (s : Sheets) (f2 f3 : Bool) (t : String) (d : Nat) (db : DB)
    (h : 2 < s.sheet7.ncols) :
    ((extract_and_sync (.ok s false f2 f3) t d db).2).cash_positions =
      db.cash_positions.filter (fun r => !(r.day == d)) ++
        (netCashExtract s.sheet7).map (fun p => CashRow.mk p.1 ("EUR") p.2 d db.nextPass) ∧
    ((extract_and_sync (.ok s false f2 f3) t d db).2).nextPass = db.nextPass + 1 ∧
    ∃ a, ((extract_and_sync (.ok s false f2 f3) t d db).2).sync_log = db.sync_log ++ [a] := by
  have hg : (false || decide (s.sheet7.ncols < 3)) = false := by
    simp only [Bool.false_or, decide_eq_false_iff_not]
    omega
  simp only [extract_and_sync, extract_and_sync_body, log_sync_status,
    sync_cash_flow_forecast_db, sync_key_metrics_db, sync_cash_positions, hg,
    Bool.false_eq_true, if_false]
  exact ⟨by trivial, by trivial, ⟨_, rfl⟩⟩

/-- In a date-sorted sample list, every date is at most the last one. -/
theorem sorted_le_getLast :
    ∀ (l : List (Rat × Rat)), List.Sorted sampleLE l →
      ∀ last, l.getLast? = some last → ∀ a ∈ l, a.1 ≤ last.1 := by
  intro l
  induction l with
  | nil => intro _ last hl; simp at hl
  | cons x t ih =>
    intro hs last hl a ha
    cases t with
    | nil =>
      simp only [List.getLast?_singleton, Option.some.injEq] at hl
      subst hl
      simp only [List.mem_singleton] at ha
      subst ha
      exact le_refl _
    | cons y t' =>
      rw [List.getLast?_cons_cons] at hl
      rcases List.mem_cons.mp ha with rfl | hat
      · have hmem : last ∈ y :: t' := by
          have hne : (y :: t') ≠ [] := by simp
          rw [List.getLast?_eq_getLast _ hne] at hl
          have := List.getLast_mem hne
          rwa [Option.some.inj hl] at this
        exact (List.pairwise_cons.mp hs).1 last hmem
      · exact ih (List.Sorted.of_cons hs) last hl a hat

/-- The windowing step preserves sortedness and bounds every pair of
surviving samples within 30 days of each other. -/
theorem windowSamples_props (l : List (Rat × Rat)) (hs : List.Sorted sampleLE l) :
    List.Sorted sampleLE (windowSamples l) ∧
    ∀ p ∈ windowSamples l, ∀ q ∈ windowSamples l, q.1 - 30 ≤ p.1 := by
  unfold windowSamples
  cases hL : l.getLast? with
  | none =>
    have hnil : l = [] := List.getLast?_eq_none_iff.mp hL
    subst hnil
    constructor
    · exact List.sorted_nil
    · intro p hp
      simp at hp
  | some last =>
    have hlmem : last ∈ l := by
      have hne : l ≠ [] := by
        intro h
        subst h
        simp at hL
      rw [List.getLast?_eq_getLast _ hne] at hL
      have := List.getLast_mem hne
      rwa [Option.some.inj hL] at this
    have hfl : last ∈ l.filter (fun p => decide (last.1 - 30 ≤ p.1)) := by
      rw [List.mem_filter]
      refine ⟨hlmem, ?_⟩
      rw [decide_eq_true_iff]
      linarith
    have hne : (l.filter (fun p => decide (last.1 - 30 ≤ p.1))).isEmpty = false := by
      rw [List.isEmpty_eq_false_iff_exists_mem]
      exact ⟨last, hfl⟩
    simp only [hne, Bool.false_eq_true, if_false]
    constructor
    · exact List.Pairwise.filter _ hs
    · intro p hp q hq
      have hp1 : last.1 - 30 ≤ p.1 := by
        have := (List.mem_filter.mp hp).2
        rwa [decide_eq_true_iff] at this
      have hq1 : q.1 ≤ last.1 :=
        sorted_le_getLast l hs last hL q (List.mem_of_mem_filter hq)
      linarith

/-- The sample series satisfies the sortedness/window invariant. -/
theorem sample_series_props :
    List.Sorted (· ≤ ·) get_sample_liquidity_data.dates ∧
    ∀ d ∈ get_sample_liquidity_data.dates,
      ∀ dm : Rat, get_sample_liquidity_data.dates.maximum = (dm : WithBot Rat) →
        dm - 30 ≤ d := by
  constructor
  · decide
  · intro d hd dm hdm
    have hm : get_sample_liquidity_data.dates.maximum =
        ((civilDay 2025 8 13 : Rat) : WithBot Rat) := by decide
    have : (civilDay 2025 8 13 : Rat) = dm := WithBot.coe_inj.mp (hm.symm.trans hdm)
    subst this
    revert hd
    revert d
    decide

/-- The workbook-data provenance tag never collides with the sample
tag. -/
theorem realTag_ne_sampleTag (n : Nat) :
    (realTag n == ("Sample Data (Excel not found)")) = false := by
  rw [beq_eq_false_iff_ne]
  intro h
  have hd := congrArg String.data h
  simp only [realTag, String.data_append, List.append_assoc, List.cons_append,
    List.cons.injEq] at hd
  exact absurd hd.1 (by decide)

/-! ## Claim theorems -/

/-- Claim C3: if the workbook file does not exist, `extract_and_sync`
returns false, appends exactly one ERROR row to `sync_log`, and leaves
`cash_positions` completely unchanged. -/
theorem file_missing_sync_error (t : String) (d : Nat) (db : DB) :
    (extract_and_sync .fileMissing t d db).1 = false ∧
    ((extract_and_sync .fileMissing t d db).2).cash_positions = db.cash_positions ∧
    ((extract_and_sync .fileMissing t d db).2).sync_log =
      db.sync_log ++ [LogRow.mk ("ERROR") 0 (some ("Excel file not found")) t] := by
  exact ⟨rfl, rfl, rfl⟩

/-- Claim C2: every `extract_and_sync` invocation appends exactly one
`sync_log` row, whose status is SUCCESS exactly when the two required
sheets were read and ERROR exactly when the file check or sheet read
failed; in particular a pass all three of whose sub-syncs absorbed
exceptions (zero records) still returns true with one SUCCESS row
recording 0 records. -/
theorem sync_log_one_row_per_invocation :
    (∀ (input : SyncInput) (t : String) (d : Nat) (db : DB),
      ∃ row : LogRow,
        ((extract_and_sync input t d db).2).sync_log = db.sync_log ++ [row] ∧
        row.sync_type = t ∧
        (row.status = ("SUCCESS") ↔ input.isOk = true) ∧
        (row.status = ("ERROR") ↔ input.isOk = false)) ∧
    (∀ (sheets : Sheets) (t : String) (d : Nat) (db : DB),
      (extract_and_sync (.ok sheets true true true) t d db).1 = true ∧
      ((extract_and_sync (.ok sheets true true true) t d db).2).sync_log =
        db.sync_log ++ [LogRow.mk ("SUCCESS") 0 none t]) := by
  constructor
  · intro input t d db
    cases input with
    | fileMissing =>
      refine ⟨LogRow.mk ("ERROR") 0 (some ("Excel file not found")) t, rfl, rfl, ?_, ?_⟩
      · simp [SyncInput.isOk]
        try decide
      · simp [SyncInput.isOk]
        try decide
    | sheetReadError msg =>
      refine ⟨LogRow.mk ("ERROR") 0 (some (("Failed to read Excel sheets: ") ++ msg)) t,
        rfl, rfl, ?_, ?_⟩
      · simp [SyncInput.isOk]
        try decide
      · simp [SyncInput.isOk]
        try decide
    | ok sheets cf ff mf =>
      refine ⟨LogRow.mk ("SUCCESS")
          ((sync_cash_positions sheets.sheet7 cf d db.nextPass
              { db with nextPass := db.nextPass + 1 }).1 +
            (sync_cash_flow_forecast sheets.dashSheet ff
              (sync_cash_positions sheets.sheet7 cf d db.nextPass
                { db with nextPass := db.nextPass + 1 }).2).1 +
            (sync_key_metrics mf
              (sync_cash_flow_forecast sheets.dashSheet ff
                (sync_cash_positions sheets.sheet7 cf d db.nextPass
                  { db with nextPass := db.nextPass + 1 }).2).2).1)
          none t, ?_, rfl, ?_, ?_⟩
      · simp only [extract_and_sync, extract_and_sync_body, log_sync_status,
          sync_key_metrics_db, sync_cash_flow_forecast_db, sync_cash_positions_log]
      · simp [SyncInput.isOk]
        try decide
      · simp [SyncInput.isOk]
        try decide
  · intro sheets t d db
    exact ⟨rfl, rfl⟩

/-- Claim C9: the scheduler loop never terminates because of an
orchestrator exception: `extract_and_sync` is total (any internal raise
of its body is absorbed into an ERROR log row and a boolean), so the
loop runs every due tick — processing each one's log append — and is
still running afterwards, exiting only when the running flag is
cleared. -/
theorem scheduler_survives_orchestrator_failures :
    (∀ (ticks : List (SyncInput × Nat)) (st : SchedState),
      st.running = true →
      (start_scheduler_loop ticks st).running = true ∧
      ((start_scheduler_loop ticks st).db).sync_log.length =
        st.db.sync_log.length + ticks.length) ∧
    (∀ (input : SyncInput) (t : String) (d : Nat) (db : DB) (e : String),
      extract_and_sync_body input d db.nextPass { db with nextPass := db.nextPass + 1 } =
        .error e →
      extract_and_sync input t d db =
        (false, log_sync_status { db with nextPass := db.nextPass + 1 }
          (LogRow.mk ("ERROR") 0 (some e) t))) := by
  constructor
  · intro ticks
    induction ticks with
    | nil =>
      intro st hr
      exact ⟨hr, by simp [start_scheduler_loop]⟩
    | cons t ts ih =>
      intro st hr
      rw [start_scheduler_loop, if_pos hr]
      set st' : SchedState := { st with db := (extract_and_sync t.1 ("AUTO") t.2 st.db).2 }
        with hst'
      have hr' : st'.running = true := hr
      obtain ⟨h1, h2⟩ := ih st' hr'
      refine ⟨h1, ?_⟩
      rw [h2, hst']
      simp only [List.length_cons]
      rw [extract_and_sync_log_length]
      omega
  · intro input t d db e h
    simp only [extract_and_sync, h]

/-- Witness for C9: a two-tick run — an orchestrator failure followed
by a healthy pass — leaves the loop running with both ticks logged. -/
theorem scheduler_survives_orchestrator_failures_witness :
    (start_scheduler_loop
      [(SyncInput.fileMissing, 0), (SyncInput.ok (Sheets.mk emptySheet emptySheet) false false false, 0)]
      (SchedState.mk true emptyDB)).running = true ∧
    ((start_scheduler_loop
      [(SyncInput.fileMissing, 0), (SyncInput.ok (Sheets.mk emptySheet emptySheet) false false false, 0)]
      (SchedState.mk true emptyDB)).db).sync_log.length = 0 + 2 := by
  have h := scheduler_survives_orchestrator_failures.1
    [(SyncInput.fileMissing, 0), (SyncInput.ok (Sheets.mk emptySheet emptySheet) false false false, 0)]
    (SchedState.mk true emptyDB) rfl
  exact ⟨h.1, h.2⟩

/-- Claim C1: two completed sync passes on the same day `d` leave the
day-`d` rows of `cash_positions` equal to exactly the rows inserted by
the second pass (each pass deletes today's rows before inserting its
own, so day-`d` rows of two passes never coexist), while `sync_log`
gains one appended row per pass. -/
theorem cash_positions_day_scoped_replace
    (db : DB) (d : Nat) (s1 s2 : Sheets) (t1 t2 : String) (f2 f3 g2 g3 : Bool)
    (h1 : 2 < s1.sheet7.ncols) (h2 : 2 < s2.sheet7.ncols) :
    (((extract_and_sync (.ok s2 false g2 g3) t2 d
        (extract_and_sync (.ok s1 false f2 f3) t1 d db).2).2).cash_positions.filter
      (fun r => r.day == d)) =
      (netCashExtract s2.sheet7).map
        (fun p => CashRow.mk p.1 ("EUR") p.2 d (db.nextPass + 1)) ∧
    ∃ a b,
      ((extract_and_sync (.ok s2 false g2 g3) t2 d
        (extract_and_sync (.ok s1 false f2 f3) t1 d db).2).2).sync_log =
        db.sync_log ++ [a, b] := by
  obtain ⟨hc1, hn1, a, ha⟩ := extract_ok_cash s1 f2 f3 t1 d db h1
  obtain ⟨hc2, hn2, b, hb⟩ :=
    extract_ok_cash s2 g2 g3 t2 d ((extract_and_sync (.ok s1 false f2 f3) t1 d db).2) h2
  constructor
  · rw [hc2, hn1, hc1]
    rw [List.filter_append, List.filter_append, filter_day_del_idem,
      filter_day_inserted_del, List.append_nil, filter_day_after_del,
      List.nil_append, filter_day_inserted]
  · exact ⟨a, b, by rw [hb, ha, List.append_assoc]; rfl⟩

/-- Witness for C1: two concrete passes over the Scenario-B sheet on
day 3 leave exactly the second pass's row (pass id 1) in
`cash_positions` and two appended log rows. -/
theorem cash_positions_day_scoped_replace_witness :
    (((extract_and_sync (.ok (Sheets.mk emptySheet scenBSheet) false false false) ("AUTO") 3
        (extract_and_sync (.ok (Sheets.mk emptySheet scenBSheet) false false false) ("MANUAL") 3
          emptyDB).2).2).cash_positions.filter (fun r => r.day == 3)) =
      (netCashExtract scenBSheet).map
        (fun p => CashRow.mk p.1 ("EUR") p.2 3 1) ∧
    ∃ a b,
      (((extract_and_sync (.ok (Sheets.mk emptySheet scenBSheet) false false false) ("AUTO") 3
        (extract_and_sync (.ok (Sheets.mk emptySheet scenBSheet) false false false) ("MANUAL") 3
          emptyDB).2).2)).sync_log = emptyDB.sync_log ++ [a, b] := by
  exact cash_positions_day_scoped_replace emptyDB 3
    (Sheets.mk emptySheet scenBSheet) (Sheets.mk emptySheet scenBSheet)
    ("MANUAL") ("AUTO") false false false false (by decide) (by decide)

set_option maxHeartbeats 1000000 in
/-- Claim C7: on any `Sheet7` whose rows 77–90, columns 1–2 hold
`("Bank A", 1 500 000)`, `(None, None)`, `("Bank B", "not-a-number")`
and blanks, the cash-position extraction yields exactly the record
`("Bank A", 1500000.0)` — malformed rows exclude only themselves — and
`sync_cash_positions` (total, hence raise-free) inserts exactly that
one row. -/
theorem cash_position_mapper_scenario_b
    (s : Sheet) (h0 : 90 < s.nrows) (hc : 2 < s.ncols)
    (hA1 : s.cell 77 1 = Cell.str ("Bank A")) (hA2 : s.cell 77 2 = Cell.num 1500000)
    (hN1 : s.cell 78 1 = Cell.empty) (hN2 : s.cell 78 2 = Cell.empty)
    (hB1 : s.cell 79 1 = Cell.str ("Bank B"))
    (hB2 : s.cell 79 2 = Cell.str ("not-a-number"))
    (hrest : ∀ i, i < 91 → 80 ≤ i → s.cell i 1 = Cell.empty ∧ s.cell i 2 = Cell.empty) :
    netCashExtract s = [((("Bank A") : String), (1500000 : Rat))] ∧
    ∀ (d pid : Nat) (db : DB),
      sync_cash_positions s false d pid db =
        (1, { db with cash_positions :=
          db.cash_positions.filter (fun r => !(r.day == d)) ++
            [CashRow.mk ("Bank A") ("EUR") 1500000 d pid] }) := by
  have hext : netCashExtract s = [((("Bank A") : String), (1500000 : Rat))] := by
    have hflt : ((List.range' 77 14).filter (fun i => decide (i < s.nrows))) =
        List.range' 77 14 := by
      rw [List.filter_eq_self]
      intro a ha
      rw [decide_eq_true_iff]
      have : a < 91 := by
        have h77 : (List.range' 77 14) = [77, 78, 79, 80, 81, 82, 83, 84, 85,
          86, 87, 88, 89, 90] := rfl
        rw [h77] at ha
        simp only [List.mem_cons, List.not_mem_nil, or_false] at ha
        rcases ha with rfl | rfl | rfl | rfl | rfl | rfl | rfl | rfl | rfl | rfl |
          rfl | rfl | rfl | rfl <;> omega
      omega
    rw [netCashExtract, hflt,
      show (List.range' 77 14) = [77, 78, 79, 80, 81, 82, 83, 84, 85, 86, 87,
        88, 89, 90] from rfl]
    have e80 := hrest 80 (by omega) (by omega)
    have e81 := hrest 81 (by omega) (by omega)
    have e82 := hrest 82 (by omega) (by omega)
    have e83 := hrest 83 (by omega) (by omega)
    have e84 := hrest 84 (by omega) (by omega)
    have e85 := hrest 85 (by omega) (by omega)
    have e86 := hrest 86 (by omega) (by omega)
    have e87 := hrest 87 (by omega) (by omega)
    have e88 := hrest 88 (by omega) (by omega)
    have e89 := hrest 89 (by omega) (by omega)
    have e90 := hrest 90 (by omega) (by omega)
    simp only [List.filterMap_cons, List.filterMap_nil, hA1, hA2, hN1, hN2, hB1, hB2,
      e80.1, e80.2, e81.1, e81.2, e82.1, e82.2, e83.1, e83.2, e84.1, e84.2,
      e85.1, e85.2, e86.1, e86.2, e87.1, e87.2, e88.1, e88.2, e89.1, e89.2,
      e90.1, e90.2]
    decide
  refine ⟨hext, ?_⟩
  intro d pid db
  have hg : (false || decide (s.ncols < 3)) = false := by
    simp only [Bool.false_or, decide_eq_false_iff_not]
    omega
  unfold sync_cash_positions
  rw [hg]
  simp only [Bool.false_eq_true, if_false, hext]
  rfl

/-- Witness for C7: the concrete Scenario-B sheet satisfies all the
layout hypotheses and yields exactly the `Bank A` record. -/
theorem cash_position_mapper_scenario_b_witness :
    netCashExtract scenBSheet = [((("Bank A") : String), (1500000 : Rat))] ∧
    sync_cash_positions scenBSheet false 3 0 emptyDB =
      (1, { emptyDB with cash_positions :=
        emptyDB.cash_positions.filter (fun r => !(r.day == 3)) ++
          [CashRow.mk ("Bank A") ("EUR") 1500000 3 0] }) := by
  have h := cash_position_mapper_scenario_b scenBSheet (by decide) (by decide)
    (by decide) (by decide) (by decide) (by decide) (by decide) (by decide)
    (by decide)
  exact ⟨h.1, h.2 3 0 emptyDB⟩

/-- Claim C10: for every `Lista contas` sheet with at least 102 rows,
the daily cash-flow value (left-to-right scan of row 100 keeping the
last numeric non-zero cell) equals the latest-variation value
(right-to-left scan of the same row returning the first numeric
non-zero cell); and when row 100 has no numeric non-zero cell, both
are 0. -/
theorem daily_cash_flow_eq_latest_variation (s : Sheet) (h : 101 < s.nrows) :
    (get_daily_cash_flow (some s)).cash_flow = get_latest_variation (some s) ∧
    ((∀ c, c < s.ncols → cellNumNZ (s.cell 100 c) = none) →
      (get_daily_cash_flow (some s)).cash_flow = 0 ∧
      get_latest_variation (some s) = 0) := by
  have hg1 : ¬ (s.nrows ≤ 101) := by omega
  have hg2 : ¬ (s.nrows ≤ 100) := by omega
  have hmain : (get_daily_cash_flow (some s)).cash_flow = get_latest_variation (some s) := by
    simp only [get_daily_cash_flow, get_latest_variation, if_neg hg1, if_neg hg2]
    rw [foldl_keep_eq_reverse_findSome (fun c => cellNumNZ (s.cell 100 c))
      (List.range s.ncols) 0]
  refine ⟨hmain, ?_⟩
  intro hall
  have hvar : get_latest_variation (some s) = 0 := by
    simp only [get_latest_variation, if_neg hg2]
    have hnone : (List.range s.ncols).reverse.findSome?
        (fun c => cellNumNZ (s.cell 100 c)) = none := by
      rw [List.findSome?_eq_none_iff]
      intro c hc
      rw [List.mem_reverse, List.mem_range] at hc
      exact hall c hc
    rw [hnone]
  exact ⟨hmain.trans hvar, hvar⟩

/-- Witness for C10: on a concrete 102-row sheet with one numeric cell
in row 100 the two values agree, and on a blank 102-row sheet both
are 0. -/
theorem daily_cash_flow_eq_latest_variation_witness :
    (get_daily_cash_flow (some row100Sheet)).cash_flow =
      get_latest_variation (some row100Sheet) ∧
    (get_daily_cash_flow (some row100BlankSheet)).cash_flow = 0 ∧
    get_latest_variation (some row100BlankSheet) = 0 := by
  refine ⟨(daily_cash_flow_eq_latest_variation row100Sheet (by decide)).1, ?_⟩
  exact (daily_cash_flow_eq_latest_variation row100BlankSheet (by decide)).2 (by decide)

/-- Claim C6: the liquidity series returned by
`get_dynamic_liquidity_data` — whether scanned from the workbook or
substituted sample data — is sorted ascending by date, and every
retained sample's date lies within 30 days (inclusive) of the series'
own maximum date. -/
theorem liquidity_series_sorted_windowed (input : Option Sheet) :
    List.Sorted (· ≤ ·) (get_dynamic_liquidity_data input).dates ∧
    ∀ d ∈ (get_dynamic_liquidity_data input).dates,
      ∀ dm : Rat,
        (get_dynamic_liquidity_data input).dates.maximum = (dm : WithBot Rat) →
        dm - 30 ≤ d := by
  cases input with
  | none => exact sample_series_props
  | some s =>
    by_cases hemp : (scanSamples s).isEmpty = true
    · simp only [get_dynamic_liquidity_data, hemp, if_true]
      exact sample_series_props
    · have hemp' : (scanSamples s).isEmpty = false := by
        cases h : (scanSamples s).isEmpty
        · rfl
        · exact absurd h hemp
      simp only [get_dynamic_liquidity_data, hemp', Bool.false_eq_true, if_false]
      have hsorted : List.Sorted sampleLE (List.insertionSort sampleLE (scanSamples s)) :=
        List.sorted_insertionSort sampleLE _
      obtain ⟨hw1, hw2⟩ :=
        windowSamples_props (List.insertionSort sampleLE (scanSamples s)) hsorted
      constructor
      · exact List.Pairwise.map _ (fun a b h => h) hw1
      · intro d hd dm hdm
        have hdm_mem : dm ∈ (windowSamples
            (List.insertionSort sampleLE (scanSamples s))).map (fun p => p.1) :=
          List.maximum_mem hdm
        obtain ⟨q, hq, hq1⟩ := List.mem_map.mp hdm_mem
        obtain ⟨p, hp, hp1⟩ := List.mem_map.mp hd
        have hpq := hw2 p hp q hq
        rw [hq1, hp1] at hpq
        exact hpq

/-- Witness for C6: on the sample series, the invariant is concrete —
the maximum date 2025-08-13 is within 30 days of the earliest sample
2025-08-05. -/
theorem liquidity_series_sorted_windowed_witness :
    List.Sorted (· ≤ ·) (get_dynamic_liquidity_data none).dates ∧
    ((civilDay 2025 8 13 : Rat) - 30 ≤ (civilDay 2025 8 5 : Rat)) := by
  refine ⟨(liquidity_series_sorted_windowed none).1, ?_⟩
  refine (liquidity_series_sorted_windowed none).2 (civilDay 2025 8 5 : Rat) ?_
    (civilDay 2025 8 13 : Rat) ?_
  · decide
  · decide

/-- Counterexample to C4 as stated: on `cexSheet`, column 2 satisfies
every condition of the claimed acceptance criterion — matching
`VALOR`/`EUR` header, present date cell two columns left, present
non-zero value cell in row 98 — yet the scanner accepts nothing,
because the date cell fails coercion; the sheet therefore yields the
sample fallback, not a sample from this column. -/
theorem marker_scan_claimed_iff_counterexample :
    headerMatches (cexSheet.cell 1 2) = true ∧ 2 ≤ 2 ∧ 98 < cexSheet.nrows ∧
    pyNotna (cexSheet.cell 0 0) = true ∧ pyNotna (cexSheet.cell 98 2) = true ∧
    pyNeZero (cexSheet.cell 98 2) = true ∧
    scanColumn cexSheet 2 = none ∧
    scanSamples cexSheet = [] ∧
    get_dynamic_liquidity_data (some cexSheet) = get_sample_liquidity_data := by
  decide

/-- Claim C4 (amended): the scanner accepts a column iff its row-1
header, upper-cased, contains both `VALOR` and `EUR`, the row-0 date
cell two columns left exists and is present, the row-98 value cell
exists, is present and non-zero, **and** the date cell coerces to a
date while the value cell is numerically coercible; on the Scenario C
sheet it yields exactly one sample, dated 2025-08-05 with value 32.6
millions. -/
theorem marker_scan_acceptance :
    (∀ (s : Sheet) (c : Nat),
      (∃ p, scanColumn s c = some p) ↔
        (headerMatches (s.cell 1 c) = true ∧ 2 ≤ c ∧ 98 < s.nrows ∧
         pyNotna (s.cell 0 (c - 2)) = true ∧ pyNotna (s.cell 98 c) = true ∧
         pyNeZero (s.cell 98 c) = true ∧
         (∃ pd, parseDateCell (s.cell 0 (c - 2)) = some pd) ∧
         (∃ v, pyFloat (s.cell 98 c) = some v))) ∧
    get_dynamic_liquidity_data (some scenCSheet) =
      LiquidityResult.mk [(civilDay 2025 8 5 : Rat)] [163/5] (realTag 1) := by
  constructor
  · intro s c
    constructor
    · rintro ⟨p, hp⟩
      simp only [scanColumn] at hp
      by_cases h1 : s.nrows ≤ 1
      · rw [if_pos h1] at hp
        cases hp
      · rw [if_neg h1] at hp
        by_cases hh : headerMatches (s.cell 1 c) = true
        · rw [if_pos hh] at hp
          by_cases hc2 : 2 ≤ c
          · rw [if_pos hc2] at hp
            by_cases h98 : 98 < s.nrows
            · rw [if_pos h98] at hp
              by_cases hand : (pyNotna (s.cell 0 (c - 2)) && pyNotna (s.cell 98 c) &&
                  pyNeZero (s.cell 98 c)) = true
              · rw [if_pos hand] at hp
                rw [Bool.and_eq_true, Bool.and_eq_true] at hand
                cases hpd : parseDateCell (s.cell 0 (c - 2)) with
                | none =>
                  rw [hpd] at hp
                  cases hp
                | some pd =>
                  rw [hpd] at hp
                  cases hv : pyFloat (s.cell 98 c) with
                  | none =>
                    rw [hv] at hp
                    cases hp
                  | some v =>
                    exact ⟨hh, hc2, h98, hand.1.1, hand.1.2, hand.2,
                      ⟨pd, rfl⟩, ⟨v, rfl⟩⟩
              · rw [if_neg hand] at hp
                cases hp
            · rw [if_neg h98] at hp
              cases hp
          · rw [if_neg hc2] at hp
            cases hp
        · rw [if_neg hh] at hp
          cases hp
    · rintro ⟨hh, hc2, h98, hnd, hnv, hnz, ⟨pd, hpd⟩, ⟨v, hv⟩⟩
      refine ⟨(pd, v / 1000000), ?_⟩
      have hn1 : ¬ (s.nrows ≤ 1) := by omega
      have hand : (pyNotna (s.cell 0 (c - 2)) && pyNotna (s.cell 98 c) &&
          pyNeZero (s.cell 98 c)) = true := by
        rw [hnd, hnv, hnz]
        rfl
      simp only [scanColumn, if_neg hn1, hh, if_true, if_pos hc2, if_pos h98,
        hand, hpd, hv]
  · decide

/-- Claim C5: the scanner's date coercion attempts, in order,
`%d-%b-%y` text, `%d/%m/%Y` text, then the generic parse; a numeric
cell is an Excel serial from the 1900 epoch minus 2 days above serial
59 and minus 1 day otherwise; a datetime cell passes through; and a
column whose coercion fails is skipped alone, the scan continuing over
the remaining columns. -/
theorem date_coercion_order :
    (∀ (s : String) (d : Rat),
      parseDMonY2 (pyStrip s) = some d → parseDateCell (Cell.str s) = some d) ∧
    (∀ (s : String) (d : Rat),
      parseDMonY2 (pyStrip s) = none → parseDMY4 (pyStrip s) = some d →
        parseDateCell (Cell.str s) = some d) ∧
    (∀ s : String,
      parseDMonY2 (pyStrip s) = none → parseDMY4 (pyStrip s) = none →
        parseDateCell (Cell.str s) = parseGeneric (pyStrip s)) ∧
    (∀ v : Rat,
      parseDateCell (Cell.num v) =
        some (if 59 < v then epoch1900 + (v - 2) else epoch1900 + (v - 1))) ∧
    (∀ dt : Rat, parseDateCell (Cell.date dt) = some dt) ∧
    (parseDateCell (Cell.str ("05-Aug-25")) = some ((civilDay 2025 8 5 : Rat)) ∧
     parseDateCell (Cell.str ("05/08/2025")) = some ((civilDay 2025 8 5 : Rat)) ∧
     parseDateCell (Cell.num 61) = some (epoch1900 + 59) ∧
     parseDateCell (Cell.num 59) = some (epoch1900 + 58) ∧
     parseDateCell (Cell.str (" notadate ")) = none) ∧
    (∀ (s : Sheet) (c : Nat),
      scanColumn s c = none →
        scanSamples s =
          ((List.range s.ncols).filter (fun i => !(i == c))).filterMap (scanColumn s)) := by
  refine ⟨?_, ?_, ?_, ?_, ?_, ?_, ?_⟩
  · intro s d h
    simp only [parseDateCell, parseDateStr, h]
  · intro s d h1 h2
    simp only [parseDateCell, parseDateStr, h1, h2]
  · intro s h1 h2
    simp only [parseDateCell, parseDateStr, h1, h2]
  · intro v
    rfl
  · intro dt
    rfl
  · refine ⟨by decide, by decide, ?_, ?_, by decide⟩
    · show some (if (59 : Rat) < 61 then epoch1900 + ((61 : Rat) - 2)
        else epoch1900 + ((61 : Rat) - 1)) = some (epoch1900 + 59)
      decide
    · show some (if (59 : Rat) < 59 then epoch1900 + ((59 : Rat) - 2)
        else epoch1900 + ((59 : Rat) - 1)) = some (epoch1900 + 58)
      decide
  · intro s c h
    rw [scanSamples]
    exact filterMap_eq_filter_ne (scanColumn s) c h (List.range s.ncols)

/-- Witness for C5: the coercion stages and the skip property at
concrete inputs — `05-Aug-25` through the first stage, `05/08/2025`
through the second, ISO text through the generic stage, and the scan
of `cexSheet` skipping exactly its failing column 2. -/
theorem date_coercion_order_witness :
    parseDateCell (Cell.str ("05-Aug-25")) = some ((civilDay 2025 8 5 : Rat)) ∧
    parseDateCell (Cell.str ("05/08/2025")) = some ((civilDay 2025 8 5 : Rat)) ∧
    parseDateCell (Cell.str ("2025-08-05")) = parseGeneric (pyStrip ("2025-08-05")) ∧
    scanSamples cexSheet =
      ((List.range cexSheet.ncols).filter (fun i => !(i == 2))).filterMap
        (scanColumn cexSheet) := by
  refine ⟨?_, ?_, ?_, ?_⟩
  · exact date_coercion_order.1 ("05-Aug-25") ((civilDay 2025 8 5 : Rat)) (by decide)
  · exact date_coercion_order.2.1 ("05/08/2025") ((civilDay 2025 8 5 : Rat))
      (by decide) (by decide)
  · exact date_coercion_order.2.2.1 ("2025-08-05") (by decide) (by decide)
  · exact date_coercion_order.2.2.2.2.2.2 cexSheet 2 (by decide)

/-- Counterexample to C8 as stated: `get_bank_positions_from_tabelas`
run on a real `Tabelas` sheet (13 usable rows extracted, so the real
path, not the fallback) returns a frame identical, field by field, to
`get_fallback_banks` — the bank-positions fallback carries no
provenance label that real data never carries. -/
theorem bank_positions_fallback_indistinguishable :
    (extractBanks cexTabelasSheet).length = 13 ∧
    get_bank_positions_from_tabelas (some cexTabelasSheet) = get_fallback_banks := by
  exact ⟨by decide, by decide⟩

/-- Claim C8 (amended): the liquidity accessor's fallback output is
always the sample series tagged `Sample Data (Excel not found)`, a tag
no workbook-derived result ever carries (those are tagged
`Excel Real Data (… days)`); the bank-positions accessor, however,
carries no provenance tag and its fallback can coincide exactly with
real-source output. -/
theorem fallback_provenance_tags :
    (∀ input : Option Sheet,
      get_dynamic_liquidity_data input = get_sample_liquidity_data ∨
      (get_dynamic_liquidity_data input).source =
        realTag (get_dynamic_liquidity_data input).dates.length) ∧
    (∀ n : Nat, (realTag n == ("Sample Data (Excel not found)")) = false) ∧
    get_sample_liquidity_data.source = ("Sample Data (Excel not found)") := by
  refine ⟨?_, realTag_ne_sampleTag, rfl⟩
  intro input
  cases input with
  | none => exact Or.inl rfl
  | some s =>
    by_cases hemp : (scanSamples s).isEmpty = true
    · left
      simp [get_dynamic_liquidity_data, hemp]
    · right
      have hemp' : (scanSamples s).isEmpty = false := by
        cases h : (scanSamples s).isEmpty
        · rfl
        · exact absurd h hemp
      simp only [get_dynamic_liquidity_data, hemp', Bool.false_eq_true, if_false,
        List.length_map]
